import Mathlib

/-!
Verification of the two diagnostic-adapter scripts of this repository:

* the structural adapter (`.calm/run-cargo-check.py`), which spawns
  `cargo check --message-format=json`, reads its stdout line by line,
  JSON-decodes each line and re-emits matching diagnostics as normalized
  JSON records, then exits with the child's exit code; and
* the pattern adapter (`demo/.calm/flake8/run-flake8.py`), which spawns
  `flake8`, matches each stdout line against a fixed regular expression and
  re-emits matching lines as normalized JSON records, then waits for the
  child without forwarding its exit code.

The scripts are Python 2 programs.  We embed their per-line processing as
functions over a JSON value type, with Python's dynamic failures (uncaught
exceptions) made explicit in an `Except` monad, and their main loops as
functions over the list of child-output lines.
-/

/-- JSON values as produced by Python's `json.loads`.  Objects are modelled
as association lists with distinct keys (Python dicts); numbers are modelled
as integers, which covers every numeric field the adapters touch
(line/column numbers). -/
inductive Json where
  | null : Json
  | bool : Bool → Json
  | num : Int → Json
  | str : String → Json
  | arr : List Json → Json
  | obj : List (String × Json) → Json

/-- The Python exceptions the adapters can raise.  Any of these, uncaught,
terminates the interpreter with exit status 1. -/
inductive PyErr where
  | jsonDecodeErr : PyErr   -- json.loads on a non-JSON line
  | attrErr : PyErr         -- .get(...) on a non-dict value
  | keyErr : PyErr          -- d[k] with a missing key / d[0] on a dict
  | typeErr : PyErr         -- subscript or iteration on an unsupported type
  | idxErr : PyErr          -- list index out of range
  | valueErr : PyErr        -- int() on a non-numeric string
deriving DecidableEq

/-- Python truthiness of a decoded JSON value: `None`, `False`, `0`, `""`,
`[]` and `{}` are falsy, everything else is truthy. -/
def truthy : Json → Bool
  | Json.null => false
  | Json.bool b => b
  | Json.num n => n != 0
  | Json.str s => !s.data.isEmpty
  | Json.arr xs => !xs.isEmpty
  | Json.obj fs => !fs.isEmpty

/-- Python's `v is None`: the value is JSON null. -/
def Json.isNull : Json → Bool
  | Json.null => true
  | _ => false

/-- Dictionary field access returning `None` for a missing key
(the value of `fs.get(k)` once we know `fs` is a dict). -/
def jget (fs : List (String × Json)) (k : String) : Json :=
  (fs.lookup k).getD Json.null

/-- Python's `d.get(k)`: defined on dicts only; raises `AttributeError`
on any other receiver. -/
def pyGet (d : Json) (k : String) : Except PyErr Json :=
  match d with
  | Json.obj fs => Except.ok (jget fs k)
  | _ => Except.error PyErr.attrErr

/-- Python's `d[k]` with a string key: on a dict, the value or `KeyError`;
on any other receiver, `TypeError`. -/
def pySub (d : Json) (k : String) : Except PyErr Json :=
  match d with
  | Json.obj fs =>
    match fs.lookup k with
    | some v => Except.ok v
    | none => Except.error PyErr.keyErr
  | _ => Except.error PyErr.typeErr

/-- Python's `d[i]` with a non-negative integer index: list indexing (or
`IndexError`), string indexing yielding a one-character string, `KeyError`
on a dict (JSON object keys are strings, never the integer `i`), and
`TypeError` otherwise. -/
def pyIndex (d : Json) (i : Nat) : Except PyErr Json :=
  match d with
  | Json.arr xs =>
    match xs.get? i with
    | some x => Except.ok x
    | none => Except.error PyErr.idxErr
  | Json.str s =>
    match s.data.get? i with
    | some c => Except.ok (Json.str (String.singleton c))
    | none => Except.error PyErr.idxErr
  | Json.obj _ => Except.error PyErr.keyErr
  | _ => Except.error PyErr.typeErr

/-- Python's `for x in d`: lists yield their elements, strings their
one-character substrings, dicts their keys; other values raise
`TypeError`. -/
def pyIter (d : Json) : Except PyErr (List Json) :=
  match d with
  | Json.arr xs => Except.ok xs
  | Json.str s => Except.ok (s.data.map fun c => Json.str (String.singleton c))
  | Json.obj fs => Except.ok (fs.map fun kv => Json.str kv.1)
  | _ => Except.error PyErr.typeErr

mutual

/-- Python's `str()` of a decoded JSON value, as used by `'%s' % v`.
Scalars follow Python 2 exactly (`None`, `True`, `False`, decimal integers,
strings unchanged); containers are rendered in Python's repr style.  (The
adapters only ever format the diagnostic message and span label, which are
strings in the tool's output, so only the `str` case is ever exercised by
the claims; repr escaping of special characters inside nested strings is
not reproduced.) -/
def pyStr : Json → String
  | Json.null => "None"
  | Json.bool true => "True"
  | Json.bool false => "False"
  | Json.num n => toString n
  | Json.str s => s
  | Json.arr xs => "[" ++ pyReprList xs ++ "]"
  | Json.obj fs => "\x7b" ++ pyReprFields fs ++ "\x7d"

/-- Python's `repr()` of a decoded JSON value (used for container
elements). -/
def pyRepr : Json → String
  | Json.null => "None"
  | Json.bool true => "True"
  | Json.bool false => "False"
  | Json.num n => toString n
  | Json.str s => String.singleton (Char.ofNat 39) ++ s ++ String.singleton (Char.ofNat 39)
  | Json.arr xs => "[" ++ pyReprList xs ++ "]"
  | Json.obj fs => "\x7b" ++ pyReprFields fs ++ "\x7d"

/-- Comma-separated reprs of a list's elements. -/
def pyReprList : List Json → String
  | [] => ""
  | [x] => pyRepr x
  | x :: xs => pyRepr x ++ ", " ++ pyReprList xs

/-- Comma-separated `key: value` reprs of a dict's entries. -/
def pyReprFields : List (String × Json) → String
  | [] => ""
  | [kv] => String.singleton (Char.ofNat 39) ++ kv.1 ++ String.singleton (Char.ofNat 39) ++ ": " ++ pyRepr kv.2
  | kv :: fs => String.singleton (Char.ofNat 39) ++ kv.1 ++ String.singleton (Char.ofNat 39) ++ ": " ++ pyRepr kv.2 ++ ", " ++ pyReprFields fs

end

/-- One attempt of `_warn_re = re.compile(r'#\[warn\(([^)]+)\)\]')` at a
fixed position: the text must begin with the seven characters of the
literal run, then the group `[^)]+` greedily takes the non-parenthesis run
(at least one character), and the next two characters must close the
marker.  Returns the captured group. -/
def warnMatchAt (cs : List Char) : Option (List Char) :=
  match cs with
  | '#' :: '[' :: 'w' :: 'a' :: 'r' :: 'n' :: '(' :: rest =>
    let g := rest.takeWhile (fun c => c != ')')
    if g.isEmpty then none
    else
      match rest.drop g.length with
      | ')' :: ']' :: _ => some g
      | _ => none
  | _ => none

/-- Model of `re.search`: try `warnMatchAt` at every position, left to
right, and return the first captured group. -/
def warnSearchAux : List Char → Option (List Char)
  | [] => none
  | c :: rest =>
    match warnMatchAt (c :: rest) with
    | some g => some g
    | none => warnSearchAux rest

/-- Model of `_warn_re.search(s)`, returning `group(1)` of the leftmost
match. -/
def warnSearch (s : String) : Option String :=
  (warnSearchAux s.data).map fun g => String.mk g

/-- Python's `cat.replace('_', '-')` on the captured category (single
characters, so substring replacement is a character-by-character map). -/
def hyphenate (s : String) : String :=
  String.mk (s.data.map fun c => if c = '_' then '-' else c)

/-- The `for child in msg['children']` loop of the structural adapter:
take each child's `message` text (`TypeError` if it is not a string, as
`re.search` requires a string), search it for the warning-category marker,
and on the first match rebind `code` to
`'warning-%s' % match.group(1).replace('_', '-')`; otherwise leave `code`
unchanged. -/
def warnScanList : List Json → Json → Except PyErr Json
  | [], code => Except.ok code
  | child :: rest, code => do
    let cm ← pySub child "message"
    match cm with
    | Json.str s =>
      match warnSearch s with
      | some g => Except.ok (Json.str ("warning-" ++ hyphenate g))
      | none => warnScanList rest code
    | _ => Except.error PyErr.typeErr

/-- Line 26 of `run-cargo-check.py`:
`code = (msg.get('code') or {}).get('code')`. -/
def rawCode (msg : Json) : Except PyErr Json := do
  let codeObj ← pyGet msg "code"
  pyGet (if truthy codeObj then codeObj else Json.obj []) "code"

/-- Lines 26–32 of `run-cargo-check.py`, computing the `code` variable for
a message object `msg`: `rawCode`, then, only when `code` is `None` and
`msg.get('children')` is truthy (the `and` short-circuits), the child
scan.  (The source reads the children once via `msg.get('children')` in
the guard and again via `msg['children']` in the loop header; both denote
the same value since the guard requires it to be truthy, so the model
reads it once.) -/
def codeOf (msg : Json) : Except PyErr Json := do
  let code ← rawCode msg
  if code.isNull then do
    let children ← pyGet msg "children"
    if truthy children then do
      let xs ← pyIter children
      warnScanList xs code
    else Except.ok code
  else Except.ok code

/-- The normalized record printed by the structural adapter (the argument
of `json.dumps` on lines 33–40).  Fields hold the JSON values passed
through from the tool's output (the synthesized or fallback `code` being a
string). -/
structure CargoRecord where
  filename : Json
  code : Json
  level : Json
  message : Json
  line : Json
  column : Json

/-- Processing of one child-output line by the structural adapter's loop
body (lines 15–40 of `run-cargo-check.py`).  The input is the result of
`json.loads` on the raw line: `none` stands for a line the decoder rejects
(on which `json.loads` raises).  The result is `some` record exactly when
the line prints one record, `none` when it is skipped, and an error when an
uncaught Python exception terminates the script.  Field accesses are
performed in the source's evaluation order; `spans[0]` is evaluated once
here where the source re-evaluates the same pure expression, and the
truthy `spans[0].get('label')` / `spans[0]['label']` pair is read once. -/
def cargoProcessLine : Option Json → Except PyErr (Option CargoRecord)
  | none => Except.error PyErr.jsonDecodeErr
  | some d => do
    let msg ← pyGet d "message"
    let reason ← pyGet d "reason"
    let spans ← if truthy msg then pyGet msg "spans" else Except.ok msg
    if truthy msg && truthy reason && truthy spans then do
      let mtext ← pySub msg "message"
      let s0 ← pyIndex spans 0
      let lbl ← pyGet s0 "label"
      let message := if truthy lbl then Json.str (pyStr mtext ++ " (" ++ pyStr lbl ++ ")") else mtext
      let code ← codeOf msg
      let fname ← pySub s0 "file_name"
      let codeF := if truthy code then code else Json.str "generic"
      let level ← pySub msg "level"
      let lineV ← pySub s0 "line_start"
      let colV ← pySub s0 "column_start"
      Except.ok (some ⟨fname, codeF, level, message, lineV, colV⟩)
    else
      Except.ok none

/-- The records emitted for a single line (zero or one). -/
def cargoEmits (l : Option Json) : List CargoRecord :=
  match cargoProcessLine l with
  | Except.ok (some r) => [r]
  | _ => []

/-- The structural adapter's main loop over the whole child-output stream:
process lines in order, printing records as they are produced; an uncaught
exception stops the loop, keeping the records already printed. -/
def cargoRun : List (Option Json) → List CargoRecord × Option PyErr
  | [] => ([], none)
  | l :: ls =>
    match cargoProcessLine l with
    | Except.error e => ([], some e)
    | Except.ok none => cargoRun ls
    | Except.ok (some r) =>
      let rest := cargoRun ls
      (r :: rest.1, rest.2)

/-- Exit status of the structural adapter given the child's exit code:
on normal completion, `sys.exit(c.wait())` forwards the child's code; an
uncaught exception makes the interpreter exit with status 1. -/
def cargoExit (lines : List (Option Json)) (childExit : Nat) : Nat :=
  match (cargoRun lines).2 with
  | some _ => 1
  | none => childExit

/-- Python 2's `\s` character class: space, tab, newline, carriage return,
vertical tab, form feed. -/
def pyIsSpace (c : Char) : Bool :=
  c = ' ' || c = '\t' || c = '\n' || c = '\r' || c.toNat = 11 || c.toNat = 12

/-- The numeric value of a list of decimal digit characters. -/
def natOfDigits (ds : List Char) : Nat :=
  ds.foldl (fun n c => 10 * n + (c.toNat - 48)) 0

/-- Python's `int()` restricted to the strings the pattern adapter ever
passes it: the regex groups `\d+`, i.e. non-empty decimal-digit strings.
Any other string raises `ValueError`. -/
def pyInt (s : String) : Except PyErr Nat :=
  if !s.data.isEmpty && s.data.all Char.isDigit then
    Except.ok (natOfDigits s.data)
  else Except.error PyErr.valueErr

/-- One greedy step of `_report_re`: a `+`-repetition of a character class
`cls` immediately followed by one character of a class (or literal) `sep`,
where `cls` excludes every character `sep` accepts.  Under that exclusion,
greedy matching with backtracking is equivalent to taking the maximal
`cls`-run (non-empty) and requiring the very next character to satisfy
`sep`.  Returns the captured run and the remaining input. -/
def grabRun (cls sep : Char → Bool) (cs : List Char) : Option (List Char × List Char) :=
  let t := cs.takeWhile cls
  match cs.dropWhile cls with
  | c :: rest => if !t.isEmpty && sep c then some (t, rest) else none
  | [] => none

/-- Matching one raw child-output line (including its trailing newline, as
returned by `readline`) against `_report_re` of `run-flake8.py`:

    (?P<filename>[^:]+):(?P<line>\d+):(?P<column>\d+):\s(?P<code>\S+)\s(?P<message>.*)

`re.match` anchors at the start only.  The groups are matched by four
`grabRun` steps — `[^:]+` then the colon, `\d+` then a colon, twice, and
(after the single `\s` separating the colon from the code) `\S+` then one
whitespace character — and `message` is `.*`: the rest of the line up to
the newline, which is not consumed.  Returns the five captured groups. -/
def flakeMatchL (cs : List Char) : Option (List Char × List Char × List Char × List Char × List Char) := do
  let (fn, r1) ← grabRun (fun c => c != ':') (fun c => c == ':') cs
  let (d1, r2) ← grabRun Char.isDigit (fun c => c == ':') r1
  let (d2, r3) ← grabRun Char.isDigit (fun c => c == ':') r2
  match r3 with
  | w :: r4 =>
    if pyIsSpace w then do
      let (cd, r5) ← grabRun (fun c => !pyIsSpace c) pyIsSpace r4
      some (fn, d1, d2, cd, r5.takeWhile (fun c => c != '\n'))
    else none
  | [] => none

/-- Model of `_report_re.match(line)` on a line given as a string,
returning the named groups `(filename, line, column, code, message)`. -/
def flakeMatch (s : String) : Option (String × String × String × String × String) :=
  (flakeMatchL s.data).map fun g =>
    (String.mk g.1, String.mk g.2.1, String.mk g.2.2.1, String.mk g.2.2.2.1, String.mk g.2.2.2.2)

/-- The normalized record printed by the pattern adapter (the argument of
`json.dumps` on lines 30–36 of `run-flake8.py`). -/
structure FlakeRecord where
  filename : String
  line : Nat
  column : Nat
  code : String
  message : String
deriving DecidableEq

/-- Processing of one child-output line by the pattern adapter's loop body
(lines 24–36 of `run-flake8.py`): match against `_report_re`; on a match,
build the record with `int()` applied to the `line` and `column` groups (in
the dict literal's evaluation order); otherwise do nothing.  A non-matching
line executes no fallible operation at all. -/
def flakeProcessLine (s : String) : Except PyErr (Option FlakeRecord) :=
  match flakeMatch s with
  | none => Except.ok none
  | some (fn, l, c, cd, m) => do
    let li ← pyInt l
    let ci ← pyInt c
    Except.ok (some ⟨fn, li, ci, cd, m⟩)

/-- The records emitted for a single line (zero or one). -/
def flakeEmits (s : String) : List FlakeRecord :=
  match flakeProcessLine s with
  | Except.ok (some r) => [r]
  | _ => []

/-- The pattern adapter's main loop over the whole child-output stream. -/
def flakeRun : List String → List FlakeRecord × Option PyErr
  | [] => ([], none)
  | l :: ls =>
    match flakeProcessLine l with
    | Except.error e => ([], some e)
    | Except.ok none => flakeRun ls
    | Except.ok (some r) =>
      let rest := flakeRun ls
      (r :: rest.1, rest.2)

/-- Exit status of the pattern adapter given the child's exit code: the
script ends with a bare `c.wait()` whose result is discarded and no
`sys.exit` call, so normal completion exits with status 0 whatever the
child's exit code was; an uncaught exception would exit with status 1. -/
def flakeExit (lines : List String) (_childExit : Nat) : Nat :=
  match (flakeRun lines).2 with
  | some _ => 1
  | none => 0

/-- The `message` texts of a list of child diagnostics, when every child is
an object whose `message` field is a string (as in the tool's output);
`none` when some child is malformed. -/
def childMsgs : List Json → Option (List String)
  | [] => some []
  | ch :: rest =>
    match ch with
    | Json.obj cfs =>
      match cfs.lookup "message" with
      | some (Json.str s) => (childMsgs rest).map fun ms => s :: ms
      | _ => none
    | _ => none

/-- The category captured by the first child message on which
`_warn_re.search` succeeds (the scan stops at the first match). -/
def firstWarn : List String → Option String
  | [] => none
  | m :: rest =>
    match warnSearch m with
    | some g => some g
    | none => firstWarn rest

/-- Well-formedness of a message object's `code` field as cargo emits it:
absent, or falsy (e.g. JSON null), or an object.  This is exactly what
line 26 of `run-cargo-check.py` needs in order not to raise. -/
def wfCode (mfs : List (String × Json)) : Bool :=
  match mfs.lookup "code" with
  | none => true
  | some v =>
    !truthy v ||
      (match v with
       | Json.obj _ => true
       | _ => false)

/-- Well-formedness of a message object's `children` field as cargo emits
it: absent, or falsy, or a list of objects each carrying a string
`message`.  This is exactly what the child scan on lines 27–32 needs in
order not to raise. -/
def wfChildren (mfs : List (String × Json)) : Bool :=
  match mfs.lookup "children" with
  | none => true
  | some v =>
    !truthy v ||
      (match v with
       | Json.arr cs => (childMsgs cs).isSome
       | _ => false)

/-- The `children` field is absent, falsy, or a well-formed child list none
of whose messages matches the warning-category pattern. -/
def noWarnChildren (mfs : List (String × Json)) : Bool :=
  match mfs.lookup "children" with
  | none => true
  | some v =>
    !truthy v ||
      (match v with
       | Json.arr cs =>
         match childMsgs cs with
         | some ms => (firstWarn ms).isNone
         | none => false
       | _ => false)

/-- The decoded top-level object has no non-empty spans list inside its
`message`: the `message` value is not an object, or its `spans` entry is
absent or falsy (JSON null, the empty list, or another empty value). -/
def spansBad (dfs : List (String × Json)) : Bool :=
  match jget dfs "message" with
  | Json.obj mfs =>
    match mfs.lookup "spans" with
    | none => true
    | some v => !truthy v
  | _ => true

/-- The record a structural-adapter line contributes to the output stream,
`none` when it is skipped or the line raises. -/
def cargoOpt (l : Option Json) : Option CargoRecord :=
  match cargoProcessLine l with
  | Except.ok o => o
  | Except.error _ => none

/-- The record a pattern-adapter line contributes to the output stream. -/
def flakeOpt (s : String) : Option FlakeRecord :=
  match flakeProcessLine s with
  | Except.ok o => o
  | Except.error _ => none

/-! ## Helper lemmas -/

/-- A non-empty association list is a truthy dict. -/
theorem truthy_obj_of_lookup {fs : List (String × Json)} {k : String} {v : Json}
    (h : fs.lookup k = some v) : truthy (Json.obj fs) = true := by
  cases fs with
  | nil => simp [List.lookup] at h
  | cons a l => rfl

/-- A list with a known head is truthy. -/
theorem truthy_arr_cons (x : Json) (xs : List Json) :
    truthy (Json.arr (x :: xs)) = true := rfl

/-- The scan over a well-formed child list returns the code synthesized
from the first matching child message, or the incoming code when no child
matches. -/
theorem warnScanList_eq (cs : List Json) (ms : List String) (code : Json)
    (h : childMsgs cs = some ms) :
    warnScanList cs code = Except.ok (match firstWarn ms with
      | some g => Json.str ("warning-" ++ hyphenate g)
      | none => code) := by
  induction cs generalizing ms with
  | nil =>
    simp [childMsgs] at h
    subst h
    simp [warnScanList, firstWarn]
  | cons ch rest ih =>
    cases ch with
    | obj cfs =>
      simp only [childMsgs] at h
      cases hl : cfs.lookup "message" with
      | none => rw [hl] at h; exact absurd h (by simp)
      | some v =>
        rw [hl] at h
        cases v with
        | str s =>
          cases hrest : childMsgs rest with
          | none => rw [hrest] at h; exact absurd h (by simp)
          | some ms' =>
            rw [hrest] at h
            replace h : s :: ms' = ms := by simpa using h
            subst h
            simp only [warnScanList, pySub, hl, bind, Except.bind, firstWarn]
            cases hw : warnSearch s with
            | some g => simp
            | none => simpa using ih ms' hrest
        | null => exact absurd h (by simp)
        | bool b => exact absurd h (by simp)
        | num n => exact absurd h (by simp)
        | arr xs => exact absurd h (by simp)
        | obj fs => exact absurd h (by simp)
    | null => exact absurd h (by simp [childMsgs])
    | bool b => exact absurd h (by simp [childMsgs])
    | num n => exact absurd h (by simp [childMsgs])
    | str s => exact absurd h (by simp [childMsgs])
    | arr xs => exact absurd h (by simp [childMsgs])

/-- A well-formed `code` field never makes line 26 raise. -/
theorem rawCode_wf (mfs : List (String × Json)) (h : wfCode mfs = true) :
    ∃ c, rawCode (Json.obj mfs) = Except.ok c := by
  simp only [wfCode] at h
  cases hl : mfs.lookup "code" with
  | none =>
    exact ⟨Json.null, by simp [rawCode, pyGet, jget, hl, bind, Except.bind, truthy]⟩
  | some v =>
    rw [hl] at h
    by_cases ht : truthy v = true
    · cases v with
      | obj cfs =>
        exact ⟨jget cfs "code", by simp [rawCode, pyGet, jget, hl, bind, Except.bind, ht]⟩
      | null => simp [truthy] at ht
      | bool b => simp [ht] at h
      | num n => simp [ht] at h
      | str s => simp [ht] at h
      | arr xs => simp [ht] at h
    · replace ht : truthy v = false := by simpa using ht
      exact ⟨Json.null, by simp [rawCode, pyGet, jget, hl, bind, Except.bind, ht, List.lookup]⟩

/-- When line 26 yields a non-`None` code, the child scan is skipped and
the code is returned unchanged. -/
theorem codeOf_of_notNull (msg c : Json) (hraw : rawCode msg = Except.ok c)
    (hc : c.isNull = false) : codeOf msg = Except.ok c := by
  simp [codeOf, hraw, bind, Except.bind, hc]

/-- When line 26 yields `None` and the children are a well-formed,
non-empty list, the result is the scan's outcome. -/
theorem codeOf_of_null_scan (mfs : List (String × Json)) (cs : List Json)
    (ms : List String)
    (hraw : rawCode (Json.obj mfs) = Except.ok Json.null)
    (hch : mfs.lookup "children" = some (Json.arr cs))
    (hcs : cs ≠ [])
    (hms : childMsgs cs = some ms) :
    codeOf (Json.obj mfs) = Except.ok (match firstWarn ms with
      | some g => Json.str ("warning-" ++ hyphenate g)
      | none => Json.null) := by
  have ht : truthy (Json.arr cs) = true := by
    cases cs with
    | nil => exact absurd rfl hcs
    | cons x xs => rfl
  simp [codeOf, hraw, bind, Except.bind, Json.isNull, pyGet, jget, hch, ht, pyIter,
    warnScanList_eq cs ms Json.null hms]

/-- When line 26 yields `None` and no child message matches the
warning-category pattern (including the cases of absent or falsy
children), the code stays `None`. -/
theorem codeOf_of_null_noWarn (mfs : List (String × Json))
    (hraw : rawCode (Json.obj mfs) = Except.ok Json.null)
    (hnw : noWarnChildren mfs = true) :
    codeOf (Json.obj mfs) = Except.ok Json.null := by
  simp only [noWarnChildren] at hnw
  cases hl : mfs.lookup "children" with
  | none =>
    simp [codeOf, hraw, bind, Except.bind, Json.isNull, pyGet, jget, hl, truthy]
  | some v =>
    rw [hl] at hnw
    by_cases ht : truthy v = true
    · cases v with
      | arr cs =>
        simp only [ht, Bool.not_true, Bool.false_or] at hnw
        cases hms : childMsgs cs with
        | none => rw [hms] at hnw; simp at hnw
        | some ms =>
          rw [hms] at hnw
          replace hnw : (firstWarn ms).isNone = true := hnw
          have hfw : firstWarn ms = none := by
            cases hfw2 : firstWarn ms with
            | none => rfl
            | some g => rw [hfw2] at hnw; simp at hnw
          simp [codeOf, hraw, bind, Except.bind, Json.isNull, pyGet, jget, hl, ht, pyIter,
            warnScanList_eq cs ms Json.null hms, hfw]
      | null => simp [truthy] at ht
      | bool b => simp [ht] at hnw
      | num n => simp [ht] at hnw
      | str s => simp [ht] at hnw
      | obj fs => simp [ht] at hnw
    · replace ht : truthy v = false := by simpa using ht
      simp [codeOf, hraw, bind, Except.bind, Json.isNull, pyGet, jget, hl, ht]

/-- A well-formed message object never makes the code computation raise. -/
theorem codeOf_wf (mfs : List (String × Json)) (h1 : wfCode mfs = true)
    (h2 : wfChildren mfs = true) :
    ∃ c, codeOf (Json.obj mfs) = Except.ok c := by
  obtain ⟨c, hraw⟩ := rawCode_wf mfs h1
  by_cases hc : c.isNull = true
  · have hcnull : c = Json.null := by cases c <;> simp [Json.isNull] at hc ⊢
    subst hcnull
    simp only [wfChildren] at h2
    cases hl : mfs.lookup "children" with
    | none =>
      exact ⟨Json.null, by simp [codeOf, hraw, bind, Except.bind, Json.isNull, pyGet, jget, hl, truthy]⟩
    | some v =>
      rw [hl] at h2
      by_cases ht : truthy v = true
      · cases v with
        | arr cs =>
          simp only [ht, Bool.not_true, Bool.false_or] at h2
          cases hms : childMsgs cs with
          | none => rw [hms] at h2; simp [Option.isSome] at h2
          | some ms =>
            refine ⟨match firstWarn ms with
              | some g => Json.str ("warning-" ++ hyphenate g)
              | none => Json.null, ?_⟩
            simp [codeOf, hraw, bind, Except.bind, Json.isNull, pyGet, jget, hl, ht, pyIter,
              warnScanList_eq cs ms Json.null hms]
        | null => simp [truthy] at ht
        | bool b => simp [ht] at h2
        | num n => simp [ht] at h2
        | str s => simp [ht] at h2
        | obj fs => simp [ht] at h2
      · replace ht : truthy v = false := by simpa using ht
        exact ⟨Json.null, by simp [codeOf, hraw, bind, Except.bind, Json.isNull, pyGet, jget, hl, ht]⟩
  · replace hc : c.isNull = false := by simpa using hc
    exact ⟨c, codeOf_of_notNull _ c hraw hc⟩

/-- Master evaluation lemma: on a decoded object whose `message` is a
well-shaped message object (string-keyed fields as cargo emits them), with
a truthy `reason` and a non-empty span list whose first span is an object
carrying the location fields, one record is printed, assembled exactly as
on lines 23–40 of `run-cargo-check.py`. -/
theorem cargoProcessLine_wf
    (dfs mfs sfs : List (String × Json)) (srest : List Json)
    (mtext lvl co fnv lsv csv : Json)
    (h1 : dfs.lookup "message" = some (Json.obj mfs))
    (h2 : truthy (jget dfs "reason") = true)
    (h3 : mfs.lookup "spans" = some (Json.arr (Json.obj sfs :: srest)))
    (h4 : mfs.lookup "message" = some mtext)
    (h5 : mfs.lookup "level" = some lvl)
    (hco : codeOf (Json.obj mfs) = Except.ok co)
    (h6 : sfs.lookup "file_name" = some fnv)
    (h7 : sfs.lookup "line_start" = some lsv)
    (h8 : sfs.lookup "column_start" = some csv) :
    cargoProcessLine (some (Json.obj dfs)) = Except.ok (some
      { filename := fnv
        code := if truthy co then co else Json.str "generic"
        level := lvl
        message := if truthy (jget sfs "label") then
            Json.str (pyStr mtext ++ " (" ++ pyStr (jget sfs "label") ++ ")")
          else mtext
        line := lsv
        column := csv }) := by
  have e1 : jget dfs "message" = Json.obj mfs := by simp [jget, h1]
  have e2 : jget mfs "spans" = Json.arr (Json.obj sfs :: srest) := by simp [jget, h3]
  have hm : truthy (Json.obj mfs) = true := truthy_obj_of_lookup h3
  simp [cargoProcessLine, pyGet, pySub, pyIndex, bind, Except.bind, List.get?,
    e1, e2, h2, h4, h5, hco, h6, h7, h8, hm, truthy_arr_cons]

/-- C1: for every structural-tool JSON line that decodes to an object with
a `message` object, a truthy `reason` field and a non-empty `spans` list —
well-formed as the structural tool emits them (the message carries its
text and level, the first span is an object with its location fields, and
the optional `code`/`children` fields have the tool's shapes) — the
structural adapter emits exactly one record, whose `filename`, `line` and
`column` are the first span's `file_name`, `line_start` and
`column_start`. -/
theorem structural_emits_one_record_with_first_span_fields
    (dfs mfs sfs : List (String × Json)) (srest : List Json)
    (mtext lvl fnv lsv csv : Json)
    (h1 : dfs.lookup "message" = some (Json.obj mfs))
    (h2 : truthy (jget dfs "reason") = true)
    (h3 : mfs.lookup "spans" = some (Json.arr (Json.obj sfs :: srest)))
    (h4 : mfs.lookup "message" = some mtext)
    (h5 : mfs.lookup "level" = some lvl)
    (hwc : wfCode mfs = true)
    (hwch : wfChildren mfs = true)
    (h6 : sfs.lookup "file_name" = some fnv)
    (h7 : sfs.lookup "line_start" = some lsv)
    (h8 : sfs.lookup "column_start" = some csv) :
    ∃ r, cargoEmits (some (Json.obj dfs)) = [r] ∧
      r.filename = fnv ∧ r.line = lsv ∧ r.column = csv := by
  obtain ⟨co, hco⟩ := codeOf_wf mfs hwc hwch
  refine ⟨{ filename := fnv
            code := if truthy co then co else Json.str "generic"
            level := lvl
            message := if truthy (jget sfs "label") then
                Json.str (pyStr mtext ++ " (" ++ pyStr (jget sfs "label") ++ ")")
              else mtext
            line := lsv
            column := csv }, ?_, rfl, rfl, rfl⟩
  simp [cargoEmits, cargoProcessLine_wf dfs mfs sfs srest mtext lvl co fnv lsv csv
    h1 h2 h3 h4 h5 hco h6 h7 h8]

/-- Witness for C1: a concrete compiler-message line is normalized into
one record locating the first span. -/
theorem structural_emits_one_record_with_first_span_fields_witness :
    ∃ r, cargoEmits (some (Json.obj
      [("reason", Json.str "compiler-message"),
       ("message", Json.obj
         [("message", Json.str "unused variable: x"),
          ("level", Json.str "warning"),
          ("spans", Json.arr [Json.obj
            [("file_name", Json.str "src/main.rs"),
             ("line_start", Json.num 3),
             ("column_start", Json.num 9),
             ("label", Json.null)]]),
          ("code", Json.null),
          ("children", Json.arr [])])])) = [r] ∧
      r.filename = Json.str "src/main.rs" ∧
      r.line = Json.num 3 ∧ r.column = Json.num 9 :=
  structural_emits_one_record_with_first_span_fields
    [("reason", Json.str "compiler-message"),
     ("message", Json.obj
       [("message", Json.str "unused variable: x"),
        ("level", Json.str "warning"),
        ("spans", Json.arr [Json.obj
          [("file_name", Json.str "src/main.rs"),
           ("line_start", Json.num 3),
           ("column_start", Json.num 9),
           ("label", Json.null)]]),
        ("code", Json.null),
        ("children", Json.arr [])])]
    [("message", Json.str "unused variable: x"),
     ("level", Json.str "warning"),
     ("spans", Json.arr [Json.obj
       [("file_name", Json.str "src/main.rs"),
        ("line_start", Json.num 3),
        ("column_start", Json.num 9),
        ("label", Json.null)]]),
     ("code", Json.null),
     ("children", Json.arr [])]
    [("file_name", Json.str "src/main.rs"),
     ("line_start", Json.num 3),
     ("column_start", Json.num 9),
     ("label", Json.null)]
    [] (Json.str "unused variable: x") (Json.str "warning")
    (Json.str "src/main.rs") (Json.num 3) (Json.num 9)
    rfl rfl rfl rfl rfl rfl rfl rfl rfl rfl

/-- A string starting with the synthesized `warning-` run is non-empty and
hence truthy. -/
theorem truthy_warning_str (s : String) :
    truthy (Json.str ("warning-" ++ s)) = true := by
  cases s with
  | mk d => rfl

/-- C6: when a well-formed diagnostic's message has no code (`code.code`
JSON null, or the `code` object absent or without that key) and the scan
of its child messages finds the warning-category marker — the first
matching child capturing category `cat` — the emitted record's `code` is
`"warning-"` followed by `cat` with underscores replaced by hyphens; for
the category `unused_variables` this is `"warning-unused-variables"`
(see the witness). -/
theorem structural_code_synthesized_from_warning_marker
    (dfs mfs sfs : List (String × Json)) (srest cs : List Json)
    (ms : List String) (cat : String) (mtext lvl fnv lsv csv : Json)
    (h1 : dfs.lookup "message" = some (Json.obj mfs))
    (h2 : truthy (jget dfs "reason") = true)
    (h3 : mfs.lookup "spans" = some (Json.arr (Json.obj sfs :: srest)))
    (h4 : mfs.lookup "message" = some mtext)
    (h5 : mfs.lookup "level" = some lvl)
    (h6 : sfs.lookup "file_name" = some fnv)
    (h7 : sfs.lookup "line_start" = some lsv)
    (h8 : sfs.lookup "column_start" = some csv)
    (hraw : rawCode (Json.obj mfs) = Except.ok Json.null)
    (hch : mfs.lookup "children" = some (Json.arr cs))
    (hms : childMsgs cs = some ms)
    (hfw : firstWarn ms = some cat) :
    ∃ r, cargoEmits (some (Json.obj dfs)) = [r] ∧
      r.code = Json.str ("warning-" ++ hyphenate cat) := by
  have hcs : cs ≠ [] := by
    intro h
    subst h
    simp only [childMsgs, Option.some.injEq] at hms
    subst hms
    simp [firstWarn] at hfw
  have hco : codeOf (Json.obj mfs) = Except.ok (Json.str ("warning-" ++ hyphenate cat)) := by
    rw [codeOf_of_null_scan mfs cs ms hraw hch hcs hms, hfw]
  have htw := truthy_warning_str (hyphenate cat)
  have hrec := cargoProcessLine_wf dfs mfs sfs srest mtext lvl
    (Json.str ("warning-" ++ hyphenate cat)) fnv lsv csv h1 h2 h3 h4 h5 hco h6 h7 h8
  refine ⟨{ filename := fnv
            code := Json.str ("warning-" ++ hyphenate cat)
            level := lvl
            message := if truthy (jget sfs "label") then
                Json.str (pyStr mtext ++ " (" ++ pyStr (jget sfs "label") ++ ")")
              else mtext
            line := lsv
            column := csv }, ?_, rfl⟩
  simp [cargoEmits, hrec, htw]

/-- Witness for C6: a diagnostic with a null code and a child help message
naming the `unused_variables` lint is emitted with code
`warning-unused-variables`. -/
theorem structural_code_synthesized_from_warning_marker_witness :
    ∃ r, cargoEmits (some (Json.obj
      [("reason", Json.str "compiler-message"),
       ("message", Json.obj
         [("message", Json.str "unused variable: x"),
          ("level", Json.str "warning"),
          ("spans", Json.arr [Json.obj
            [("file_name", Json.str "src/main.rs"),
             ("line_start", Json.num 3),
             ("column_start", Json.num 9),
             ("label", Json.null)]]),
          ("code", Json.null),
          ("children", Json.arr [Json.obj
            [("message", Json.str "#[warn(unused_variables)] on by default")]])])])) = [r] ∧
      r.code = Json.str "warning-unused-variables" :=
  structural_code_synthesized_from_warning_marker
    [("reason", Json.str "compiler-message"),
     ("message", Json.obj
       [("message", Json.str "unused variable: x"),
        ("level", Json.str "warning"),
        ("spans", Json.arr [Json.obj
          [("file_name", Json.str "src/main.rs"),
           ("line_start", Json.num 3),
           ("column_start", Json.num 9),
           ("label", Json.null)]]),
        ("code", Json.null),
        ("children", Json.arr [Json.obj
          [("message", Json.str "#[warn(unused_variables)] on by default")]])])]
    [("message", Json.str "unused variable: x"),
     ("level", Json.str "warning"),
     ("spans", Json.arr [Json.obj
       [("file_name", Json.str "src/main.rs"),
        ("line_start", Json.num 3),
        ("column_start", Json.num 9),
        ("label", Json.null)]]),
     ("code", Json.null),
     ("children", Json.arr [Json.obj
       [("message", Json.str "#[warn(unused_variables)] on by default")]])]
    [("file_name", Json.str "src/main.rs"),
     ("line_start", Json.num 3),
     ("column_start", Json.num 9),
     ("label", Json.null)]
    [] [Json.obj [("message", Json.str "#[warn(unused_variables)] on by default")]]
    ["#[warn(unused_variables)] on by default"] "unused_variables"
    (Json.str "unused variable: x") (Json.str "warning")
    (Json.str "src/main.rs") (Json.num 3) (Json.num 9)
    rfl rfl rfl rfl rfl rfl rfl rfl rfl rfl rfl rfl

/-- C7: when a well-formed diagnostic's message has no code (`code.code`
JSON null, or the `code` object absent or without that key) and none of
its child messages matches the warning-category pattern (including the
cases of absent, falsy or empty children), the emitted record's `code` is
the literal string `"generic"`. -/
theorem structural_code_falls_back_to_generic
    (dfs mfs sfs : List (String × Json)) (srest : List Json)
    (mtext lvl fnv lsv csv : Json)
    (h1 : dfs.lookup "message" = some (Json.obj mfs))
    (h2 : truthy (jget dfs "reason") = true)
    (h3 : mfs.lookup "spans" = some (Json.arr (Json.obj sfs :: srest)))
    (h4 : mfs.lookup "message" = some mtext)
    (h5 : mfs.lookup "level" = some lvl)
    (h6 : sfs.lookup "file_name" = some fnv)
    (h7 : sfs.lookup "line_start" = some lsv)
    (h8 : sfs.lookup "column_start" = some csv)
    (hraw : rawCode (Json.obj mfs) = Except.ok Json.null)
    (hnw : noWarnChildren mfs = true) :
    ∃ r, cargoEmits (some (Json.obj dfs)) = [r] ∧
      r.code = Json.str "generic" := by
  have hco : codeOf (Json.obj mfs) = Except.ok Json.null :=
    codeOf_of_null_noWarn mfs hraw hnw
  have hrec := cargoProcessLine_wf dfs mfs sfs srest mtext lvl
    Json.null fnv lsv csv h1 h2 h3 h4 h5 hco h6 h7 h8
  refine ⟨{ filename := fnv
            code := Json.str "generic"
            level := lvl
            message := if truthy (jget sfs "label") then
                Json.str (pyStr mtext ++ " (" ++ pyStr (jget sfs "label") ++ ")")
              else mtext
            line := lsv
            column := csv }, ?_, rfl⟩
  simp [cargoEmits, hrec, truthy]

/-- Witness for C7: a diagnostic with a null code and a single child whose
message carries no warning-category marker is emitted with code
`generic`. -/
theorem structural_code_falls_back_to_generic_witness :
    ∃ r, cargoEmits (some (Json.obj
      [("reason", Json.str "compiler-message"),
       ("message", Json.obj
         [("message", Json.str "mismatched types"),
          ("level", Json.str "error"),
          ("spans", Json.arr [Json.obj
            [("file_name", Json.str "src/lib.rs"),
             ("line_start", Json.num 7),
             ("column_start", Json.num 2),
             ("label", Json.null)]]),
          ("code", Json.null),
          ("children", Json.arr [Json.obj
            [("message", Json.str "expected u32, found bool")]])])])) = [r] ∧
      r.code = Json.str "generic" :=
  structural_code_falls_back_to_generic
    [("reason", Json.str "compiler-message"),
     ("message", Json.obj
       [("message", Json.str "mismatched types"),
        ("level", Json.str "error"),
        ("spans", Json.arr [Json.obj
          [("file_name", Json.str "src/lib.rs"),
           ("line_start", Json.num 7),
           ("column_start", Json.num 2),
           ("label", Json.null)]]),
        ("code", Json.null),
        ("children", Json.arr [Json.obj
          [("message", Json.str "expected u32, found bool")]])])]
    [("message", Json.str "mismatched types"),
     ("level", Json.str "error"),
     ("spans", Json.arr [Json.obj
       [("file_name", Json.str "src/lib.rs"),
        ("line_start", Json.num 7),
        ("column_start", Json.num 2),
        ("label", Json.null)]]),
     ("code", Json.null),
     ("children", Json.arr [Json.obj
       [("message", Json.str "expected u32, found bool")]])]
    [("file_name", Json.str "src/lib.rs"),
     ("line_start", Json.num 7),
     ("column_start", Json.num 2),
     ("label", Json.null)]
    [] (Json.str "mismatched types") (Json.str "error")
    (Json.str "src/lib.rs") (Json.num 7) (Json.num 2)
    rfl rfl rfl rfl rfl rfl rfl rfl rfl rfl

/-- C10: when a well-formed diagnostic's message carries a `code` object
whose `code` value is the empty string, the emitted record's `code` is
`"generic"`, and the child messages are never consulted: the `children`
field is unconstrained here (it may even hold a matching warning-category
marker, or be malformed), because `"" is None` is false, so the scan on
lines 27–32 is skipped and `code or 'generic'` turns the falsy empty
string into `"generic"`. -/
theorem structural_empty_string_code_yields_generic_without_child_scan
    (dfs mfs sfs cfs : List (String × Json)) (srest : List Json)
    (mtext lvl fnv lsv csv : Json)
    (h1 : dfs.lookup "message" = some (Json.obj mfs))
    (h2 : truthy (jget dfs "reason") = true)
    (h3 : mfs.lookup "spans" = some (Json.arr (Json.obj sfs :: srest)))
    (h4 : mfs.lookup "message" = some mtext)
    (h5 : mfs.lookup "level" = some lvl)
    (h6 : sfs.lookup "file_name" = some fnv)
    (h7 : sfs.lookup "line_start" = some lsv)
    (h8 : sfs.lookup "column_start" = some csv)
    (hcv : mfs.lookup "code" = some (Json.obj cfs))
    (hcc : cfs.lookup "code" = some (Json.str "")) :
    ∃ r, cargoEmits (some (Json.obj dfs)) = [r] ∧
      r.code = Json.str "generic" := by
  have hco : codeOf (Json.obj mfs) = Except.ok (Json.str "") := by
    have hraw : rawCode (Json.obj mfs) = Except.ok (Json.str "") := by
      have ht : truthy (Json.obj cfs) = true := truthy_obj_of_lookup hcc
      simp [rawCode, pyGet, jget, hcv, bind, Except.bind, ht, hcc]
    exact codeOf_of_notNull _ _ hraw rfl
  have hrec := cargoProcessLine_wf dfs mfs sfs srest mtext lvl
    (Json.str "") fnv lsv csv h1 h2 h3 h4 h5 hco h6 h7 h8
  refine ⟨{ filename := fnv
            code := Json.str "generic"
            level := lvl
            message := if truthy (jget sfs "label") then
                Json.str (pyStr mtext ++ " (" ++ pyStr (jget sfs "label") ++ ")")
              else mtext
            line := lsv
            column := csv }, ?_, rfl⟩
  simp [cargoEmits, hrec, truthy]

/-- Witness for C10: an empty-string `code.code` yields `generic` even
though a child message carries a warning-category marker. -/
theorem structural_empty_string_code_yields_generic_without_child_scan_witness :
    ∃ r, cargoEmits (some (Json.obj
      [("reason", Json.str "compiler-message"),
       ("message", Json.obj
         [("message", Json.str "unused variable: y"),
          ("level", Json.str "warning"),
          ("spans", Json.arr [Json.obj
            [("file_name", Json.str "src/main.rs"),
             ("line_start", Json.num 5),
             ("column_start", Json.num 1),
             ("label", Json.null)]]),
          ("code", Json.obj [("code", Json.str "")]),
          ("children", Json.arr [Json.obj
            [("message", Json.str "#[warn(unused_variables)] on by default")]])])])) = [r] ∧
      r.code = Json.str "generic" :=
  structural_empty_string_code_yields_generic_without_child_scan
    [("reason", Json.str "compiler-message"),
     ("message", Json.obj
       [("message", Json.str "unused variable: y"),
        ("level", Json.str "warning"),
        ("spans", Json.arr [Json.obj
          [("file_name", Json.str "src/main.rs"),
           ("line_start", Json.num 5),
           ("column_start", Json.num 1),
           ("label", Json.null)]]),
        ("code", Json.obj [("code", Json.str "")]),
        ("children", Json.arr [Json.obj
          [("message", Json.str "#[warn(unused_variables)] on by default")]])])]
    [("message", Json.str "unused variable: y"),
     ("level", Json.str "warning"),
     ("spans", Json.arr [Json.obj
       [("file_name", Json.str "src/main.rs"),
        ("line_start", Json.num 5),
        ("column_start", Json.num 1),
        ("label", Json.null)]]),
     ("code", Json.obj [("code", Json.str "")]),
     ("children", Json.arr [Json.obj
       [("message", Json.str "#[warn(unused_variables)] on by default")]])]
    [("file_name", Json.str "src/main.rs"),
     ("line_start", Json.num 5),
     ("column_start", Json.num 1),
     ("label", Json.null)]
    [("code", Json.str "")]
    [] (Json.str "unused variable: y") (Json.str "warning")
    (Json.str "src/main.rs") (Json.num 5) (Json.num 1)
    rfl rfl rfl rfl rfl rfl rfl rfl rfl rfl

/-- C5: for every successfully decoded object that lacks a `message`
field, or lacks a truthy `reason` field, or whose message has an empty or
missing `spans` list, the structural adapter emits nothing for that line
(the guard on line 22 fails, or a malformed truthy `message` raises before
printing; either way no record is printed). -/
theorem structural_skips_incomplete_diagnostics
    (dfs : List (String × Json))
    (h : dfs.lookup "message" = none ∨ truthy (jget dfs "reason") = false ∨
      spansBad dfs = true) :
    cargoEmits (some (Json.obj dfs)) = [] := by
  by_cases hM : truthy (jget dfs "message") = true
  · cases hMv : jget dfs "message" with
    | obj mfs =>
      have hguard : truthy (jget dfs "reason") = false ∨
          truthy (jget mfs "spans") = false := by
        rcases h with h1 | h2 | h3
        · rw [jget, h1] at hMv; simp at hMv
        · exact Or.inl h2
        · right
          simp only [spansBad, hMv] at h3
          cases hl : mfs.lookup "spans" with
          | none => simp [jget, hl, truthy]
          | some v =>
            rw [hl] at h3
            simp only [jget, hl, Option.getD_some]
            simpa using h3
      rw [hMv] at hM
      rcases hguard with hg | hg
      · simp [cargoEmits, cargoProcessLine, pyGet, bind, Except.bind, hMv, hM, hg]
      · simp [cargoEmits, cargoProcessLine, pyGet, bind, Except.bind, hMv, hM, hg]
    | null => rw [hMv] at hM; exact absurd hM (by simp [truthy])
    | bool b =>
      rw [hMv] at hM
      simp [cargoEmits, cargoProcessLine, pyGet, bind, Except.bind, hMv, hM]
    | num n =>
      rw [hMv] at hM
      simp [cargoEmits, cargoProcessLine, pyGet, bind, Except.bind, hMv, hM]
    | str s =>
      rw [hMv] at hM
      simp [cargoEmits, cargoProcessLine, pyGet, bind, Except.bind, hMv, hM]
    | arr xs =>
      rw [hMv] at hM
      simp [cargoEmits, cargoProcessLine, pyGet, bind, Except.bind, hMv, hM]
  · replace hM : truthy (jget dfs "message") = false := by simpa using hM
    simp [cargoEmits, cargoProcessLine, pyGet, bind, Except.bind, hM]

/-- Witness for C5: a build-progress event with no `message` field is
skipped. -/
theorem structural_skips_incomplete_diagnostics_witness :
    cargoEmits (some (Json.obj [("reason", Json.str "compiler-artifact")])) = [] :=
  structural_skips_incomplete_diagnostics
    [("reason", Json.str "compiler-artifact")] (Or.inl rfl)

/-- A non-empty list is not `isEmpty`. -/
theorem isEmpty_false_of_ne {α : Type} {l : List α} (h : l ≠ []) :
    l.isEmpty = false := by
  cases l with
  | nil => exact absurd rfl h
  | cons a t => rfl

/-- A successful `grabRun` captures the maximal non-empty class run. -/
theorem grabRun_some (cls sep : Char → Bool) (cs t rest : List Char)
    (h : grabRun cls sep cs = some (t, rest)) :
    t = cs.takeWhile cls ∧ t ≠ [] := by
  simp only [grabRun] at h
  split at h
  case h_1 c rest' heq =>
    split at h
    case isTrue hcond =>
      simp only [Option.some.injEq, Prod.mk.injEq] at h
      obtain ⟨ht, -⟩ := h
      subst ht
      refine ⟨rfl, ?_⟩
      intro hnil
      rw [hnil] at hcond
      simp at hcond
    case isFalse => exact absurd h (by simp)
  case h_2 => exact absurd h (by simp)

/-- Computation rule for `grabRun` on an input that starts with a
class run followed by a separator character. -/
theorem grabRun_append (cls sep : Char → Bool) (t : List Char) (c : Char)
    (rest : List Char) (ht : ∀ a ∈ t, cls a = true) (htne : t ≠ [])
    (hc : cls c = false) (hsep : sep c = true) :
    grabRun cls sep (t ++ c :: rest) = some (t, rest) := by
  have h1 : (t ++ c :: rest).takeWhile cls = t := by
    rw [List.takeWhile_append_of_pos ht]
    simp [List.takeWhile_cons, hc]
  have h2 : (t ++ c :: rest).dropWhile cls = c :: rest := by
    rw [List.dropWhile_append_of_pos ht]
    simp [List.dropWhile_cons, hc]
  simp [grabRun, h1, h2, isEmpty_false_of_ne htne, hsep]

/-- The `line` and `column` groups produced by `_report_re` are non-empty
digit runs. -/
theorem flakeMatchL_digits (cs fn d1 d2 cd m : List Char)
    (h : flakeMatchL cs = some (fn, d1, d2, cd, m)) :
    d1 ≠ [] ∧ d1.all Char.isDigit = true ∧ d2 ≠ [] ∧ d2.all Char.isDigit = true := by
  simp only [flakeMatchL, bind, Option.bind] at h
  cases hg1 : grabRun (fun c => c != ':') (fun c => c == ':') cs with
  | none => rw [hg1] at h; exact absurd h (by simp)
  | some p1 =>
    obtain ⟨fn', r1⟩ := p1
    rw [hg1] at h
    simp only at h
    cases hg2 : grabRun Char.isDigit (fun c => c == ':') r1 with
    | none => rw [hg2] at h; exact absurd h (by simp)
    | some p2 =>
      obtain ⟨d1', r2⟩ := p2
      rw [hg2] at h
      simp only at h
      cases hg3 : grabRun Char.isDigit (fun c => c == ':') r2 with
      | none => rw [hg3] at h; exact absurd h (by simp)
      | some p3 =>
        obtain ⟨d2', r3⟩ := p3
        rw [hg3] at h
        simp only at h
        obtain ⟨ht1, hne1⟩ := grabRun_some _ _ _ _ _ hg2
        obtain ⟨ht2, hne2⟩ := grabRun_some _ _ _ _ _ hg3
        have hall1 : d1'.all Char.isDigit = true := by
          rw [ht1]
          exact List.all_eq_true.mpr fun a ha => List.mem_takeWhile_imp ha
        have hall2 : d2'.all Char.isDigit = true := by
          rw [ht2]
          exact List.all_eq_true.mpr fun a ha => List.mem_takeWhile_imp ha
        cases r3 with
        | nil => exact absurd h (by simp)
        | cons w r4 =>
          simp only at h
          by_cases hw : pyIsSpace w = true
          · rw [if_pos hw] at h
            cases hg4 : grabRun (fun c => !pyIsSpace c) pyIsSpace r4 with
            | none => rw [hg4] at h; exact absurd h (by simp)
            | some p4 =>
              obtain ⟨cd', r5⟩ := p4
              rw [hg4] at h
              simp only [Option.some.injEq, Prod.mk.injEq] at h
              obtain ⟨-, hd1, hd2, -, -⟩ := h
              subst hd1
              subst hd2
              exact ⟨hne1, hall1, hne2, hall2⟩
          · rw [if_neg hw] at h
            exact absurd h (by simp)

/-- The `line` and `column` groups of a matched line are non-empty digit
strings; `int()` on them cannot raise. -/
theorem flakeMatch_digits (s : String) (fn l c cd m : String)
    (h : flakeMatch s = some (fn, l, c, cd, m)) :
    l.data ≠ [] ∧ l.data.all Char.isDigit = true ∧
    c.data ≠ [] ∧ c.data.all Char.isDigit = true := by
  simp only [flakeMatch] at h
  obtain ⟨⟨tfn, tl, tc, tcd, tm⟩, ht, hteq⟩ := Option.map_eq_some'.mp h
  simp only [Prod.mk.injEq] at hteq
  obtain ⟨-, h2, h3, -, -⟩ := hteq
  subst h2
  subst h3
  exact flakeMatchL_digits s.data tfn tl tc tcd tm ht

/-- The pattern adapter's loop body never raises: a non-matching line does
nothing, and on a match the `int()` conversions receive digit strings. -/
theorem flakeProcessLine_ok (s : String) : ∃ o, flakeProcessLine s = Except.ok o := by
  cases hm : flakeMatch s with
  | none => exact ⟨none, by simp [flakeProcessLine, hm]⟩
  | some g =>
    obtain ⟨fn, l, c, cd, m⟩ := g
    obtain ⟨h1, h2, h3, h4⟩ := flakeMatch_digits s fn l c cd m hm
    refine ⟨some ⟨fn, natOfDigits l.data, natOfDigits c.data, cd, m⟩, ?_⟩
    simp [flakeProcessLine, hm, pyInt, bind, Except.bind,
      isEmpty_false_of_ne h1, h2, isEmpty_false_of_ne h3, h4]

/-- The pattern adapter's run over any stream terminates normally and its
output is the in-order filter-map of the lines. -/
theorem flakeRun_eq (ls : List String) :
    flakeRun ls = (ls.filterMap flakeOpt, none) := by
  induction ls with
  | nil => rfl
  | cons l ls ih =>
    obtain ⟨o, ho⟩ := flakeProcessLine_ok l
    cases o with
    | none => simp [flakeRun, ho, List.filterMap_cons, flakeOpt, ih]
    | some r => simp [flakeRun, ho, List.filterMap_cons, flakeOpt, ih]

/-- Counterexample to C3 (the claim that a non-JSON line is skipped
silently, raising no error and leaving the exit code unaffected): on a
line that `json.loads` rejects, line 18 of `run-cargo-check.py` raises
`JSONDecodeError` uncaught, and with the child exiting 0 the adapter
nevertheless exits 1. -/
theorem structural_undecodable_line_not_silent_cex :
    cargoProcessLine none = Except.error PyErr.jsonDecodeErr ∧
    cargoExit [none] 0 = 1 :=
  ⟨rfl, rfl⟩

/-- C3 as amended: a child-output line that is not decodable as JSON makes
the structural adapter raise a JSON decode error and terminate; no record
is emitted for that line, and once such a line is reached (all lines
before it having been processed without error) the adapter exits with
status 1 — the Python error exit — instead of the child's exit code. -/
theorem structural_undecodable_line_raises :
    cargoProcessLine none = Except.error PyErr.jsonDecodeErr ∧
    cargoEmits none = [] ∧
    ∀ (ws ls : List (Option Json)) (c : Nat),
      (cargoRun ws).2 = none → cargoExit (ws ++ none :: ls) c = 1 := by
  refine ⟨rfl, rfl, ?_⟩
  intro ws ls c hw
  induction ws with
  | nil => rfl
  | cons l ws ih =>
    cases he : cargoProcessLine l with
    | error e =>
      rw [show (cargoRun (l :: ws)).2 = some e by simp [cargoRun, he]] at hw
      exact absurd hw (by simp)
    | ok o =>
      have hw' : (cargoRun ws).2 = none := by
        cases o with
        | none => rw [← hw]; simp [cargoRun, he]
        | some r => rw [← hw]; simp [cargoRun, he]
      have := ih hw'
      cases o with
      | none => simpa [cargoExit, cargoRun, he] using this
      | some r => simpa [cargoExit, cargoRun, he] using this

/-- Witness for the amended C3: after one cleanly skipped line, an
undecodable line makes the adapter exit 1 although the child exited 0. -/
theorem structural_undecodable_line_raises_witness :
    cargoExit ([some (Json.obj [("reason", Json.str "build-finished")])] ++ none :: []) 0 = 1 :=
  structural_undecodable_line_raises.2.2
    [some (Json.obj [("reason", Json.str "build-finished")])] [] 0 rfl

/-- Counterexample to C2 (the claim that both adapters exit with the
child's exit code): the pattern adapter ends with a bare `c.wait()` whose
value is discarded, so when flake8 reports findings and exits 1 the
adapter still exits 0, not 1 as the claim requires. -/
theorem exit_code_propagation_cex :
    flakeExit ["a.py:1:2: E501 line too long\n"] 1 = 0 := rfl

/-- C2 as amended: the structural adapter forwards the child's exit code
via `sys.exit(c.wait())` whenever its loop finishes without an uncaught
exception, however many records were emitted; the pattern adapter, whose
`c.wait()` result is discarded and which never raises, always exits 0
regardless of the child's exit code. -/
theorem exit_code_propagation_amended :
    (∀ (ls : List (Option Json)) (c : Nat),
      (cargoRun ls).2 = none → cargoExit ls c = c) ∧
    (∀ (ls : List String) (c : Nat), flakeExit ls c = 0) := by
  constructor
  · intro ls c h
    simp [cargoExit, h]
  · intro ls c
    simp [flakeExit, flakeRun_eq]

/-- Witness for the amended C2: a clean structural run forwards the
child's exit code, and the pattern adapter exits 0 under a non-zero child
exit. -/
theorem exit_code_propagation_amended_witness :
    cargoExit [some (Json.obj [("reason", Json.str "build-finished")])] 101 = 101 ∧
    flakeExit ["a.py:1:2: E501 line too long\n"] 1 = 0 :=
  ⟨exit_code_propagation_amended.1
      [some (Json.obj [("reason", Json.str "build-finished")])] 101 rfl,
    exit_code_propagation_amended.2 ["a.py:1:2: E501 line too long\n"] 1⟩

/-- C8: a child-output line that `_report_re` does not match is skipped by
the pattern adapter without raising: its loop body does nothing, the
line's presence does not change the emitted stream, and the exit status is
unaffected. -/
theorem pattern_nonmatching_line_silent (ws zs : List String) (s : String)
    (c : Nat) (h : flakeMatch s = none) :
    flakeProcessLine s = Except.ok none ∧
    (flakeRun (ws ++ s :: zs)).1 = (flakeRun (ws ++ zs)).1 ∧
    flakeExit (ws ++ s :: zs) c = flakeExit (ws ++ zs) c := by
  have ho : flakeOpt s = none := by simp [flakeOpt, flakeProcessLine, h]
  refine ⟨by simp [flakeProcessLine, h], ?_, ?_⟩
  · simp [flakeRun_eq, List.filterMap_append, List.filterMap_cons, ho]
  · simp [flakeExit, flakeRun_eq]

/-- Witness for C8: flake8's summary line is dropped without affecting the
record extracted from the diagnostic line around it. -/
theorem pattern_nonmatching_line_silent_witness :
    flakeProcessLine "3 issues found\n" = Except.ok none ∧
    (flakeRun (["a.py:1:2: E9 x\n"] ++ "3 issues found\n" :: [])).1 =
      (flakeRun (["a.py:1:2: E9 x\n"] ++ [])).1 ∧
    flakeExit (["a.py:1:2: E9 x\n"] ++ "3 issues found\n" :: []) 7 =
      flakeExit (["a.py:1:2: E9 x\n"] ++ []) 7 :=
  pattern_nonmatching_line_silent ["a.py:1:2: E9 x\n"] [] "3 issues found\n" 7 rfl

/-- C9: both adapters emit records in the order of the source lines they
were extracted from: the structural adapter's output is the in-order
filter-map of the prefix of lines it processed before any uncaught
exception (the whole stream when none occurs), and the pattern adapter's
output is the in-order filter-map of the whole stream. -/
theorem adapters_preserve_input_order :
    (∀ ls : List (Option Json), ∃ n,
      (cargoRun ls).1 = (ls.take n).filterMap cargoOpt) ∧
    (∀ ls : List String, (flakeRun ls).1 = ls.filterMap flakeOpt) := by
  refine ⟨?_, fun ls => by simp [flakeRun_eq]⟩
  intro ls
  induction ls with
  | nil => exact ⟨0, rfl⟩
  | cons l ls ih =>
    obtain ⟨n, hn⟩ := ih
    cases he : cargoProcessLine l with
    | error e => exact ⟨0, by simp [cargoRun, he]⟩
    | ok o =>
      cases o with
      | none =>
        have hc : cargoOpt l = none := by simp [cargoOpt, he]
        exact ⟨n + 1, by simp [cargoRun, he, List.take_succ_cons, List.filterMap_cons, hc, hn]⟩
      | some r =>
        have hc : cargoOpt l = some r := by simp [cargoOpt, he]
        exact ⟨n + 1, by simp [cargoRun, he, List.take_succ_cons, List.filterMap_cons, hc, hn]⟩

/-- C4: on the exact line `src/a.py:12:5: E501 line too long` the pattern
adapter emits the record with filename `src/a.py`, line 12, column 5, code
`E501` and message `line too long` (with or without the trailing newline
`readline` supplies); and in general, on any line assembled from a
non-empty colon-free filename, non-empty digit runs for line and column, a
non-empty whitespace-free code token and a newline-free message, the match
extracts the filename and code verbatim, parses line and column as
integers, and takes the remainder of the line as the message. -/
theorem pattern_match_extracts_fields :
    flakeProcessLine "src/a.py:12:5: E501 line too long\n" =
      Except.ok (some ⟨"src/a.py", 12, 5, "E501", "line too long"⟩) ∧
    flakeProcessLine "src/a.py:12:5: E501 line too long" =
      Except.ok (some ⟨"src/a.py", 12, 5, "E501", "line too long"⟩) ∧
    ∀ (fn d1 d2 cd m : List Char),
      fn ≠ [] → (∀ a ∈ fn, (a != ':') = true) →
      d1 ≠ [] → (∀ a ∈ d1, Char.isDigit a = true) →
      d2 ≠ [] → (∀ a ∈ d2, Char.isDigit a = true) →
      cd ≠ [] → (∀ a ∈ cd, (!pyIsSpace a) = true) →
      (∀ a ∈ m, (a != '\n') = true) →
      flakeProcessLine
        (String.mk (fn ++ ':' :: (d1 ++ ':' :: (d2 ++ ':' :: ' ' :: (cd ++ ' ' :: m))))) =
        Except.ok (some
          ⟨String.mk fn, natOfDigits d1, natOfDigits d2, String.mk cd, String.mk m⟩) := by
  refine ⟨rfl, rfl, ?_⟩
  intro fn d1 d2 cd m hfnne hfn hd1ne hd1 hd2ne hd2 hcdne hcd hm
  have g1 := grabRun_append (fun c => c != ':') (fun c => c == ':') fn ':'
    (d1 ++ ':' :: (d2 ++ ':' :: ' ' :: (cd ++ ' ' :: m))) hfn hfnne rfl rfl
  have g2 := grabRun_append Char.isDigit (fun c => c == ':') d1 ':'
    (d2 ++ ':' :: ' ' :: (cd ++ ' ' :: m)) hd1 hd1ne rfl rfl
  have g3 := grabRun_append Char.isDigit (fun c => c == ':') d2 ':'
    (' ' :: (cd ++ ' ' :: m)) hd2 hd2ne rfl rfl
  have g4 := grabRun_append (fun c => !pyIsSpace c) pyIsSpace cd ' ' m hcd hcdne rfl rfl
  have hmL : m.takeWhile (fun c => c != '\n') = m :=
    List.takeWhile_eq_self_iff.mpr hm
  have hfm : flakeMatchL
      (fn ++ ':' :: (d1 ++ ':' :: (d2 ++ ':' :: ' ' :: (cd ++ ' ' :: m)))) =
      some (fn, d1, d2, cd, m) := by
    have hsp : pyIsSpace ' ' = true := rfl
    simp [flakeMatchL, bind, Option.bind, g1, g2, g3, g4, hmL, hsp]
  have hall1 : d1.all Char.isDigit = true := List.all_eq_true.mpr hd1
  have hall2 : d2.all Char.isDigit = true := List.all_eq_true.mpr hd2
  simp [flakeProcessLine, flakeMatch, hfm, pyInt, bind, Except.bind,
    isEmpty_false_of_ne hd1ne, isEmpty_false_of_ne hd2ne, hall1, hall2]

/-- Witness for C4's general clause: the assembled line `a:3:7: W1 ok` is
parsed into its five fields. -/
theorem pattern_match_extracts_fields_witness :
    flakeProcessLine
      (String.mk (['a'] ++ ':' :: (['3'] ++ ':' :: (['7'] ++ ':' :: ' ' ::
        (['W', '1'] ++ ' ' :: ['o', 'k']))))) =
      Except.ok (some ⟨"a", 3, 7, "W1", "ok"⟩) :=
  pattern_match_extracts_fields.2.2 ['a'] ['3'] ['7'] ['W', '1'] ['o', 'k']
    (by decide) (by decide) (by decide) (by decide) (by decide) (by decide)
    (by decide) (by decide) (by decide)
